import Mathlib

/-!
Shallow embedding of the rollout / deploy / port-forward logic of the
kube-cmd command-line utilities.

The embedded functions mirror, statement by statement:
  * `waitForDeploymentRollout` and `listDeployments` of kube-deploy
    (polling loop with a fixed 180-attempt budget),
  * the poll-print-check loop of kube-rollout's `runRollout`
    (with its status-only early return),
  * `runDeploy` of kube-deploy (empty-image guard, fetch, set image on
    every template container, single update, then the rollout wait),
  * `resolveTargetPod` and `parsePortSpec` of kube-port-forward.

Cluster reads and writes are modelled by explicit fetch/update oracles
passed as function arguments; each embedded operation additionally
returns a trace (number of fetches, number of sleeps, objects written,
lookups performed) so that "does not sleep again", "no lookup occurs",
"writes exactly once" become provable statements.

Machine integers (`int32` replica counts, `int64` generations) are
modelled as `Int`; the Go code only compares them, never does
arithmetic, so no overflow modelling is needed.  The Go `*int32`
pointer `dep.Spec.Replicas` is modelled as `Option Int`, and the
un-guarded pointer dereference in the wait loops as an explicit
`nilDeref` outcome.
-/

namespace KubeCmd

/-- One container of a deployment's pod template (fields the code never
reads are elided). -/
structure Container where
  name : String
  image : String
deriving Repr, DecidableEq

/-- `dep.Spec` — the desired state: `Replicas *int32` (hence an
`Option`) and the pod template's containers. -/
structure DeploymentSpec where
  replicas : Option Int
  containers : List Container
deriving Repr, DecidableEq

/-- `dep.Status` — the replica counters and observed generation read by
the rollout checks. -/
structure DeploymentStatus where
  observedGeneration : Int
  updatedReplicas : Int
  readyReplicas : Int
  availableReplicas : Int
deriving Repr, DecidableEq

/-- A deployment object as read by the tools: metadata generation, spec
and status. -/
structure Deployment where
  generation : Int
  spec : DeploymentSpec
  status : DeploymentStatus
deriving Repr, DecidableEq

/-- The four-way convergence condition of both wait loops, evaluated
against an already dereferenced desired replica count `rep`:
`UpdatedReplicas == *Replicas && ReadyReplicas == *Replicas &&
AvailableReplicas == *Replicas && ObservedGeneration >= Generation`. -/
def rolloutComplete (d : Deployment) (rep : Int) : Bool :=
  d.status.updatedReplicas == rep &&
  d.status.readyReplicas == rep &&
  d.status.availableReplicas == rep &&
  decide (d.status.observedGeneration ≥ d.generation)

/-- The convergence check as the code performs it, dereferencing
`dep.Spec.Replicas` with no nil guard: `none` models the nil-pointer
panic. -/
def convergedCheck (d : Deployment) : Option Bool :=
  d.spec.replicas.map (rolloutComplete d)

/-- `listDeployments`' projection of the desired count: `desired :=
int32(1); if dep.Spec.Replicas != nil { desired = *dep.Spec.Replicas }`. -/
def listDesiredReplicas (d : Deployment) : Int :=
  match d.spec.replicas with
  | some r => r
  | none => 1

/-- Outcome of `waitForDeploymentRollout`: success, an aborted fetch, a
timeout (carrying the formatted error message), or the nil-pointer
panic of `*dep.Spec.Replicas`. -/
inductive WaitOutcome where
  | converged
  | fetchFailed (msg : String)
  | timedOut (msg : String)
  | nilDeref
deriving Repr, DecidableEq

/-- Result of a wait-loop run together with its observable trace: how
many Get calls were made and how many times the loop slept. -/
structure WaitResult where
  outcome : WaitOutcome
  fetches : Nat
  sleeps : Nat
deriving Repr, DecidableEq

/-- `waitForDeploymentRollout`'s loop body, started at attempt index
`i` with `r` attempts remaining.  `fetch j` models
`client.Clientset.AppsV1().Deployments(ns).Get(ctx, name, ...)` on the
`j`-th poll; `ns` is threaded exactly as in the source, where it is
used only to address the Get.  Each non-converged iteration sleeps the
fixed 1s interval before the next fetch. -/
def waitFrom (fetch : Nat → Except String Deployment) (ns name : String)
    (i : Nat) : Nat → WaitResult
  | 0 => ⟨.timedOut ("timeout waiting for rollout of deployment " ++ name), 0, 0⟩
  | r + 1 =>
    match fetch i with
    | .error e => ⟨.fetchFailed ("failed to get deployment during rollout: " ++ e), 1, 0⟩
    | .ok d =>
      match convergedCheck d with
      | none => ⟨.nilDeref, 1, 0⟩
      | some true => ⟨.converged, 1, 0⟩
      | some false =>
        let rest := waitFrom fetch ns name (i + 1) r
        ⟨rest.outcome, rest.fetches + 1, rest.sleeps + 1⟩

/-- `waitForDeploymentRollout`: at most 180 fetches at a fixed 1s
interval (`for i := 0; i < 180; i++`). -/
def waitForDeploymentRollout (fetch : Nat → Except String Deployment)
    (ns name : String) : WaitResult :=
  waitFrom fetch ns name 0 180

/-- The snapshot printed on each iteration of kube-rollout's loop:
`ObservedGeneration=%d/%d Updated=%d Ready=%d Available=%d Desired=%d`. -/
structure Observation where
  observedGeneration : Int
  generation : Int
  updated : Int
  ready : Int
  available : Int
  desired : Int
deriving Repr, DecidableEq

/-- Builds the printed snapshot from a fetched deployment and the
dereferenced desired count. -/
def mkObservation (d : Deployment) (rep : Int) : Observation :=
  ⟨d.status.observedGeneration, d.generation,
   d.status.updatedReplicas, d.status.readyReplicas,
   d.status.availableReplicas, rep⟩

/-- Outcome of kube-rollout's `runRollout` poll loop.  `done` covers
every `return nil` (convergence and the status-only early return
alike). -/
inductive RolloutOutcome where
  | done
  | fetchFailed (msg : String)
  | timedOut (msg : String)
  | nilDeref
deriving Repr, DecidableEq

/-- Result and trace of `runRollout`'s loop: outcome, fetch count,
sleep count, and the observations printed, in order. -/
structure RolloutRunResult where
  outcome : RolloutOutcome
  fetches : Nat
  sleeps : Nat
  printed : List Observation
deriving Repr, DecidableEq

/-- The poll loop of `runRollout`, started at attempt index `i` with
`r` attempts remaining.  Each iteration fetches, prints the observation
(dereferencing `*dep.Spec.Replicas` in the Printf — `nilDeref` when the
pointer is nil), returns on convergence, sleeps 1s, and — only then —
returns when `--restart=false` (status-only mode). -/
def rolloutLoop (doRestart : Bool) (fetch : Nat → Except String Deployment)
    (name : String) (i : Nat) : Nat → RolloutRunResult
  | 0 => ⟨.timedOut ("timeout waiting for rollout of deployment " ++ name), 0, 0, []⟩
  | r + 1 =>
    match fetch i with
    | .error e => ⟨.fetchFailed ("failed to get deployment: " ++ e), 1, 0, []⟩
    | .ok d =>
      match d.spec.replicas with
      | none => ⟨.nilDeref, 1, 0, []⟩
      | some rep =>
        let o := mkObservation d rep
        if rolloutComplete d rep then ⟨.done, 1, 0, [o]⟩
        else if !doRestart then ⟨.done, 1, 1, [o]⟩
        else
          let rest := rolloutLoop doRestart fetch name (i + 1) r
          ⟨rest.outcome, rest.fetches + 1, rest.sleeps + 1, o :: rest.printed⟩

/-- The wait-or-status phase of `runRollout`: the loop above with the
180-attempt budget of `for i := 0; i < 180; i++`. -/
def runRolloutPoll (doRestart : Bool) (fetch : Nat → Except String Deployment)
    (name : String) : RolloutRunResult :=
  rolloutLoop doRestart fetch name 0 180

/-- Outcome of kube-deploy's `runDeploy` with a deployment argument. -/
inductive DeployOutcome where
  | success
  | failure (msg : String)
  | nilDeref
deriving Repr, DecidableEq

/-- Result and trace of `runDeploy`: outcome, number of initial Get
calls, the objects passed to Update (in order), and the number of
fetches performed by the rollout wait. -/
structure DeployResult where
  outcome : DeployOutcome
  gets : Nat
  writes : List Deployment
  waitFetches : Nat
deriving Repr, DecidableEq

/-- `strings.TrimSpace`: leading and trailing whitespace removed
(whitespace per `Char.isWhitespace`). -/
def goTrimSpace (s : String) : String :=
  ⟨((s.toList.dropWhile Char.isWhitespace).reverse.dropWhile Char.isWhitespace).reverse⟩

/-- The image rewrite of `runDeploy`: `for i := range
dep.Spec.Template.Spec.Containers { ...Containers[i].Image = image }`. -/
def updateAllImages (image : String) (d : Deployment) : Deployment :=
  { d with spec := { d.spec with
      containers := d.spec.containers.map fun c => { c with image := image } } }

/-- `runDeploy` (deployment argument present): reject a blank `--image`
before touching the cluster, fetch the deployment, set the image on
every template container, update once, then run the rollout wait.
`getDep` models the initial Get, `updateRes` the Update call, and
`waitFetch` the Gets performed by `waitForDeploymentRollout`. -/
def runDeploy (image : String) (getDep : Except String Deployment)
    (updateRes : Deployment → Except String Unit)
    (waitFetch : Nat → Except String Deployment) (ns name : String) : DeployResult :=
  if goTrimSpace image = "" then
    ⟨.failure "--image is required when specifying a deployment", 0, [], 0⟩
  else
    match getDep with
    | .error e => ⟨.failure ("failed to get deployment " ++ name ++ ": " ++ e), 1, [], 0⟩
    | .ok dep =>
      let dep2 := updateAllImages image dep
      match updateRes dep2 with
      | .error e => ⟨.failure ("failed to update deployment: " ++ e), 1, [dep2], 0⟩
      | .ok _ =>
        let w := waitForDeploymentRollout waitFetch ns name
        match w.outcome with
        | .converged => ⟨.success, 1, [dep2], w.fetches⟩
        | .fetchFailed m => ⟨.failure m, 1, [dep2], w.fetches⟩
        | .timedOut m => ⟨.failure m, 1, [dep2], w.fetches⟩
        | .nilDeref => ⟨.nilDeref, 1, [dep2], w.fetches⟩

/-- `addr.TargetRef` — kind and name of the object backing an endpoint
address. -/
structure TargetRef where
  kind : String
  name : String
deriving Repr, DecidableEq

/-- One endpoint address; `TargetRef` is a pointer in the source, hence
an `Option` (fields the code never reads are elided). -/
structure EndpointAddress where
  targetRef : Option TargetRef
deriving Repr, DecidableEq

/-- One endpoint subset (only `Addresses` is read). -/
structure EndpointSubset where
  addresses : List EndpointAddress
deriving Repr, DecidableEq

/-- The Endpoints object of a service. -/
structure Endpoints where
  subsets : List EndpointSubset
deriving Repr, DecidableEq

/-- The address filter of `resolveTargetPod`'s scan:
`addr.TargetRef != nil && addr.TargetRef.Kind == "Pod" &&
addr.TargetRef.Name != ""`. -/
def isPodBacked (a : EndpointAddress) : Bool :=
  match a.targetRef with
  | some r => r.kind == "Pod" && r.name != ""
  | none => false

/-- Inner loop of the scan: first matching address of one subset. -/
def firstPodInAddresses : List EndpointAddress → Option String
  | [] => none
  | a :: rest =>
    match a.targetRef with
    | some r =>
      if r.kind == "Pod" && r.name != "" then some r.name
      else firstPodInAddresses rest
    | none => firstPodInAddresses rest

/-- Outer loop of the scan: subsets in order, addresses in order. -/
def firstPodInSubsets : List EndpointSubset → Option String
  | [] => none
  | s :: rest =>
    match firstPodInAddresses s.addresses with
    | some n => some n
    | none => firstPodInSubsets rest

/-- All addresses of an endpoints object, flattened in scan order;
used to state order properties of the nested loops. -/
def allAddresses : List EndpointSubset → List EndpointAddress
  | [] => []
  | s :: rest => s.addresses ++ allAddresses rest

/-- `strings.HasPrefix`. -/
def strStarts (s p : String) : Bool :=
  p.toList.isPrefixOf s.toList

/-- `strings.ToLower` (ASCII case mapping, which is all the prefix
comparison needs). -/
def goToLower (s : String) : String :=
  ⟨s.toList.map Char.toLower⟩

/-- `strings.SplitN(s, sep, 2)`: the whole string when `sep` is absent,
otherwise the parts before and after the first occurrence. -/
def goSplitN2 (s : String) (sep : Char) : List String :=
  let cs := s.toList
  let pre := cs.takeWhile (fun c => c != sep)
  if pre.length == cs.length then [s]
  else [⟨pre⟩, ⟨cs.drop (pre.length + 1)⟩]

/-- A cluster read performed by the resolver, recorded in the trace. -/
inductive Lookup where
  | endpoints (ns name : String)
  | pod (ns name : String)
deriving Repr, DecidableEq

/-- `resolveTargetPod`: maps a target string (`<pod>` or
`svc/<name>` / `service/<name>`, prefix matched case-insensitively on
`strings.ToLower(target)`) to a pod name.  `getEndpoints` models
`Endpoints(namespace).Get`, `getPod` models `Pods(namespace).Get`; the
second component of the result lists the cluster reads performed. -/
def resolveTargetPod (getEndpoints : String → String → Except String Endpoints)
    (getPod : String → String → Except String Unit)
    (ns target : String) : Except String String × List Lookup :=
  let lower := goToLower target
  if strStarts lower "svc/" || strStarts lower "service/" then
    let parts := goSplitN2 target '/'
    if parts.length != 2 || parts.getD 1 "" == "" then
      (.error "invalid service target, expected svc/<name>", [])
    else
      let svcName := parts.getD 1 ""
      match getEndpoints ns svcName with
      | .error e =>
        (.error ("failed to get endpoints for service " ++ svcName ++ ": " ++ e),
         [.endpoints ns svcName])
      | .ok eps =>
        match firstPodInSubsets eps.subsets with
        | some podName => (.ok podName, [.endpoints ns svcName])
        | none =>
          (.error ("no backing pod found for service " ++ svcName),
           [.endpoints ns svcName])
  else
    match getPod ns target with
    | .error e => (.error ("failed to get pod " ++ target ++ ": " ++ e), [.pod ns target])
    | .ok _ => (.ok target, [.pod ns target])

/-- `strings.Split` on a single-character separator, character-list
level. -/
def splitCharList : List Char → Char → List (List Char)
  | [], _ => [[]]
  | c :: cs, sep =>
    if c == sep then [] :: splitCharList cs sep
    else
      match splitCharList cs sep with
      | [] => [[c]]
      | p :: ps => (c :: p) :: ps

/-- `strings.Split(s, sep)` for a one-character separator. -/
def goSplitAll (s : String) (sep : Char) : List String :=
  (splitCharList s.toList sep).map fun l => ⟨l⟩

/-- Sign handling of `strconv.Atoi` (via `ParseInt`): an optional
leading `+` or `-`. -/
def atoiSign : List Char → Int × List Char
  | '+' :: rest => (1, rest)
  | '-' :: rest => (-1, rest)
  | cs => (1, cs)

/-- `strconv.Atoi`: optional sign, at least one digit, digits only,
64-bit range; `none` models a non-nil error. -/
def atoi (s : String) : Option Int :=
  let sd := atoiSign s.toList
  let sign := sd.1
  let digits := sd.2
  if digits.isEmpty then none
  else if digits.all Char.isDigit then
    let n : Nat := digits.foldl (fun acc c => acc * 10 + (c.toNat - 48)) 0
    if sign = 1 ∧ (n : Int) > 2 ^ 63 - 1 then none
    else if sign = -1 ∧ (n : Int) > 2 ^ 63 then none
    else some (sign * n)
  else none

/-- `parsePortSpec`: `"p"` maps to `(p, p)`, `"l:r"` to `(l, r)`, any
other shape (or a part `Atoi` rejects) to an error with the source's
message. -/
def parsePortSpec (spec : String) : Except String (Int × Int) :=
  let parts := goSplitAll spec ':'
  match parts with
  | [p] =>
    match atoi p with
    | none => .error ("invalid port number: " ++ p)
    | some port => .ok (port, port)
  | [l, r] =>
    match atoi l with
    | none => .error ("invalid local port number: " ++ l)
    | some lp =>
      match atoi r with
      | none => .error ("invalid remote port number: " ++ r)
      | some rp => .ok (lp, rp)
  | _ => .error "invalid port specification format"

/-- The sentence "the name of the first address, scanning subsets and
addresses in their given order, whose backing target reference is a
pod", taken literally: the address filter checks only that the target
reference exists and has kind `Pod`.  Compared below against the
source's scan, which additionally requires a non-empty name. -/
def claimFirstPodName (eps : Endpoints) : Option String :=
  ((allAddresses eps.subsets).find? fun a =>
      match a.targetRef with
      | some r => r.kind == "Pod"
      | none => false).bind
    fun a => a.targetRef.map TargetRef.name

/-- Occurrence of `sub` as a contiguous run inside a character list;
used to state what an error message does or does not name. -/
def hasSubRun (sub : List Char) : List Char → Bool
  | [] => sub.isEmpty
  | c :: rest => sub.isPrefixOf (c :: rest) || hasSubRun sub rest

/-- `strings.Contains`: `sub` occurs inside `s`. -/
def strContains (s sub : String) : Bool :=
  hasSubRun sub.toList s.toList

/-! Concrete fixtures used by witnesses and counterexamples. -/

/-- A deployment whose rollout is not complete: 1 of 3 replicas
updated/ready/available. -/
def dStuck : Deployment := ⟨2, ⟨some 3, [⟨"app", "img:1"⟩]⟩, ⟨2, 1, 1, 1⟩⟩

/-- A deployment whose rollout is complete: 3 of 3 replicas, generation
observed. -/
def dConv : Deployment := ⟨2, ⟨some 3, [⟨"app", "img:1"⟩]⟩, ⟨2, 3, 3, 3⟩⟩

/-- A deployment with a nil `Spec.Replicas` pointer. -/
def dNil : Deployment := ⟨2, ⟨none, [⟨"app", "img:1"⟩]⟩, ⟨2, 1, 1, 1⟩⟩

/-- A fetch oracle that always returns the stuck deployment. -/
def fetchStuck : Nat → Except String Deployment := fun _ => .ok dStuck

/-- A fetch oracle that always returns the converged deployment. -/
def fetchConv : Nat → Except String Deployment := fun _ => .ok dConv

/-- A fetch oracle that always returns the nil-replicas deployment. -/
def fetchNil : Nat → Except String Deployment := fun _ => .ok dNil

/-- Endpoints whose first address references a pod with an empty name
and whose second references pod `foo-def`. -/
def epsX : Endpoints := ⟨[⟨[⟨some ⟨"Pod", ""⟩⟩, ⟨some ⟨"Pod", "foo-def"⟩⟩]⟩]⟩

/-- Endpoints backing service `foo` with pods `foo-abc` then `foo-def`. -/
def epsW : Endpoints := ⟨[⟨[⟨some ⟨"Pod", "foo-abc"⟩⟩, ⟨some ⟨"Pod", "foo-def"⟩⟩]⟩]⟩

/-- Endpoints oracle serving `epsX` for service `foo`. -/
def geX : String → String → Except String Endpoints :=
  fun _ s => if s == "foo" then .ok epsX else .error "endpoints not found"

/-- Endpoints oracle serving `epsW` for service `foo`. -/
def geW : String → String → Except String Endpoints :=
  fun _ s => if s == "foo" then .ok epsW else .error "endpoints not found"

/-- Endpoints oracle that fails every lookup. -/
def geErr : String → String → Except String Endpoints :=
  fun _ _ => .error "nope"

/-- Pod oracle that fails every lookup. -/
def gpX : String → String → Except String Unit := fun _ _ => .error "pods not found"

/-! Theorems. -/

/-- The boolean convergence check agrees with the four-way condition of
the specification. -/
theorem rolloutComplete_iff (d : Deployment) (rep : Int) :
    rolloutComplete d rep = true ↔
      (d.status.updatedReplicas = rep ∧ d.status.readyReplicas = rep ∧
       d.status.availableReplicas = rep ∧
       d.status.observedGeneration ≥ d.generation) := by
  simp [rolloutComplete, ge_iff_le, and_assoc]

/-- C1: on any poll of the rollout wait, if the fetched deployment
satisfies `updatedReplicas == desiredReplicas`, `readyReplicas ==
desiredReplicas`, `availableReplicas == desiredReplicas` and
`observedGeneration >= generation` (the boolean `rolloutComplete` check
is shown equivalent to these four conditions), both wait loops return
success on that very poll, with exactly this one fetch and no sleep; if
any condition fails, the iteration does not return success: it sleeps
once more and continues with the remaining budget. -/
theorem c1_converged_poll_returns_immediately
    (fetch : Nat → Except String Deployment) (ns name : String) (i r : Nat)
    (d : Deployment) (rep : Int)
    (hf : fetch i = .ok d) (hrep : d.spec.replicas = some rep) :
    (rolloutComplete d rep = true ↔
      (d.status.updatedReplicas = rep ∧ d.status.readyReplicas = rep ∧
       d.status.availableReplicas = rep ∧
       d.status.observedGeneration ≥ d.generation)) ∧
    (rolloutComplete d rep = true →
      waitFrom fetch ns name i (r + 1) = ⟨.converged, 1, 0⟩ ∧
      rolloutLoop true fetch name i (r + 1) = ⟨.done, 1, 0, [mkObservation d rep]⟩) ∧
    (rolloutComplete d rep = false →
      waitFrom fetch ns name i (r + 1) =
        ⟨(waitFrom fetch ns name (i + 1) r).outcome,
         (waitFrom fetch ns name (i + 1) r).fetches + 1,
         (waitFrom fetch ns name (i + 1) r).sleeps + 1⟩ ∧
      rolloutLoop true fetch name i (r + 1) =
        ⟨(rolloutLoop true fetch name (i + 1) r).outcome,
         (rolloutLoop true fetch name (i + 1) r).fetches + 1,
         (rolloutLoop true fetch name (i + 1) r).sleeps + 1,
         mkObservation d rep :: (rolloutLoop true fetch name (i + 1) r).printed⟩) := by
  refine ⟨rolloutComplete_iff d rep, fun hc => ?_, fun hc => ?_⟩
  · constructor
    · simp [waitFrom, hf, convergedCheck, hrep, hc]
    · simp [rolloutLoop, hf, hrep, hc]
  · constructor
    · simp [waitFrom, hf, convergedCheck, hrep, hc]
    · simp [rolloutLoop, hf, hrep, hc]

/-- Witness for C1 at a concrete converged deployment: the very first
poll succeeds with one fetch and zero sleeps. -/
theorem c1_converged_poll_returns_immediately_witness :
    rolloutComplete dConv 3 = true ∧
    waitFrom fetchConv "prod" "backend" 0 180 = ⟨.converged, 1, 0⟩ ∧
    rolloutLoop true fetchConv "backend" 0 180 = ⟨.done, 1, 0, [mkObservation dConv 3]⟩ := by
  have hc : rolloutComplete dConv 3 = true := by decide
  have h := c1_converged_poll_returns_immediately fetchConv "prod" "backend" 0 179
    dConv 3 rfl rfl
  exact ⟨hc, (h.2.1 hc).1, (h.2.1 hc).2⟩

/-- When every fetch in the window succeeds with a non-nil replica
count and a non-converged status, the wait loop spends its whole
budget: `r` fetches, `r` sleeps, and the timeout error built from the
deployment name. -/
theorem waitFrom_unconverged_spends_budget
    (fetch : Nat → Except String Deployment) (ns name : String) :
    ∀ (r i : Nat),
      (∀ j, i ≤ j → j < i + r → ∃ d rep, fetch j = .ok d ∧
        d.spec.replicas = some rep ∧ rolloutComplete d rep = false) →
      waitFrom fetch ns name i r =
        ⟨.timedOut ("timeout waiting for rollout of deployment " ++ name), r, r⟩ := by
  intro r
  induction r with
  | zero => intro i _; rfl
  | succ r ih =>
    intro i h
    obtain ⟨d, rep, hf, hrep, hc⟩ := h i (Nat.le_refl i) (by omega)
    have hrest := ih (i + 1) (fun j hj1 hj2 => h j (by omega) (by omega))
    simp [waitFrom, hf, convergedCheck, hrep, hc, hrest]

/-- Counterexample to C2 as stated: with a fetch oracle that never
converges, the wait in namespace `prod-team-7` and the wait in
namespace `staging-9` return the very same timeout error, whose message
is built from the deployment name alone and does not contain the
namespace — so the Timeout error does not name the namespace. -/
theorem c2_timeout_counterexample :
    waitForDeploymentRollout fetchStuck "prod-team-7" "backend" =
      waitForDeploymentRollout fetchStuck "staging-9" "backend" ∧
    (waitForDeploymentRollout fetchStuck "prod-team-7" "backend").outcome =
      .timedOut "timeout waiting for rollout of deployment backend" ∧
    strContains "timeout waiting for rollout of deployment backend"
      "prod-team-7" = false := by
  have hun : ∀ j, 0 ≤ j → j < 0 + 180 → ∃ d rep, fetchStuck j = .ok d ∧
      d.spec.replicas = some rep ∧ rolloutComplete d rep = false :=
    fun j _ _ => ⟨dStuck, 3, rfl, rfl, by decide⟩
  have h1 := waitFrom_unconverged_spends_budget fetchStuck "prod-team-7" "backend" 180 0 hun
  have h2 := waitFrom_unconverged_spends_budget fetchStuck "staging-9" "backend" 180 0 hun
  refine ⟨?_, ?_, by decide⟩
  · simp only [waitForDeploymentRollout]
    rw [h1, h2]
  · simp only [waitForDeploymentRollout]
    rw [h1]
    rfl

/-- C2 (amended): if no observation within the 180-fetch budget
converges and no fetch errors, the wait returns the Timeout error
naming the specific deployment — the namespace is not part of the
error. -/
theorem c2_timeout_names_deployment
    (fetch : Nat → Except String Deployment) (ns name : String)
    (h : ∀ j, j < 180 → ∃ d rep, fetch j = .ok d ∧
      d.spec.replicas = some rep ∧ rolloutComplete d rep = false) :
    waitForDeploymentRollout fetch ns name =
      ⟨.timedOut ("timeout waiting for rollout of deployment " ++ name), 180, 180⟩ ∧
    ∃ pre : String,
      "timeout waiting for rollout of deployment " ++ name = pre ++ name := by
  refine ⟨?_, ⟨"timeout waiting for rollout of deployment ", rfl⟩⟩
  exact waitFrom_unconverged_spends_budget fetch ns name 180 0
    (fun j _ hj => h j (by omega))

/-- Witness for C2 (amended) at a concrete never-converging oracle. -/
theorem c2_timeout_names_deployment_witness :
    waitForDeploymentRollout fetchStuck "prod" "backend" =
      ⟨.timedOut "timeout waiting for rollout of deployment backend", 180, 180⟩ := by
  have h := c2_timeout_names_deployment fetchStuck "prod" "backend"
    (fun j _ => ⟨dStuck, 3, rfl, rfl, by decide⟩)
  exact h.1

/-- C4: if the fetch of the workload errors on some poll, the wait
aborts on that very iteration — one fetch, no sleep, the fetch error
surfaced — whereas a run of fetches that merely yield non-converged
observations never aborts early: the loop performs every fetch of its
budget before returning the timeout. -/
theorem c4_fetch_error_aborts_immediately
    (fetch : Nat → Except String Deployment) (ns name e : String) (i r : Nat) :
    (fetch i = .error e →
      waitFrom fetch ns name i (r + 1) =
        ⟨.fetchFailed ("failed to get deployment during rollout: " ++ e), 1, 0⟩) ∧
    ((∀ j, i ≤ j → j < i + r → ∃ d rep, fetch j = .ok d ∧
        d.spec.replicas = some rep ∧ rolloutComplete d rep = false) →
      waitFrom fetch ns name i r =
        ⟨.timedOut ("timeout waiting for rollout of deployment " ++ name), r, r⟩) := by
  constructor
  · intro hf
    simp [waitFrom, hf]
  · exact waitFrom_unconverged_spends_budget fetch ns name r i

/-- Witness for C4: a concrete oracle failing on the first poll aborts
with one fetch and no sleep; the never-converging oracle spends all 180
fetches. -/
theorem c4_fetch_error_aborts_immediately_witness :
    waitFrom (fun _ => .error "boom") "ns" "backend" 0 180 =
      ⟨.fetchFailed "failed to get deployment during rollout: boom", 1, 0⟩ ∧
    waitFrom fetchStuck "ns" "backend" 0 180 =
      ⟨.timedOut "timeout waiting for rollout of deployment backend", 180, 180⟩ := by
  constructor
  · exact (c4_fetch_error_aborts_immediately (fun _ => .error "boom") "ns" "backend"
      "boom" 0 179).1 rfl
  · exact (c4_fetch_error_aborts_immediately fetchStuck "ns" "backend" "x" 0 180).2
      (fun j _ _ => ⟨dStuck, 3, rfl, rfl, by decide⟩)

/-- Counterexample to C3 as stated: in status-only mode
(`--restart=false`) with a non-converged observation, the operation
does sleep — once, the fixed 1s interval — before returning, so it does
not return "without any waiting or sleeping, regardless of whether the
observation satisfies the convergence invariant". -/
theorem c3_status_counterexample :
    runRolloutPoll false fetchStuck "backend" =
      ⟨.done, 1, 1, [mkObservation dStuck 3]⟩ ∧
    (runRolloutPoll false fetchStuck "backend").sleeps ≠ 0 := by
  refine ⟨by decide, ?_⟩
  intro h
  rw [show runRolloutPoll false fetchStuck "backend" =
    ⟨.done, 1, 1, [mkObservation dStuck 3]⟩ by decide] at h
  cases h

/-- C3 (amended): status-only mode performs exactly one fetch, builds
and prints exactly one observation, and returns without further
polling; it does not sleep when the observation is converged, and
sleeps the poll interval exactly once when it is not. -/
theorem c3_status_single_fetch
    (fetch : Nat → Except String Deployment) (name : String) (r : Nat)
    (d : Deployment) (rep : Int)
    (hf : fetch 0 = .ok d) (hrep : d.spec.replicas = some rep) :
    rolloutLoop false fetch name 0 (r + 1) =
      ⟨.done, 1, if rolloutComplete d rep then 0 else 1, [mkObservation d rep]⟩ := by
  cases hc : rolloutComplete d rep <;> simp [rolloutLoop, hf, hrep, hc]

/-- Witness for C3 (amended): one fetch and one printed observation in
both the converged and the non-converged case. -/
theorem c3_status_single_fetch_witness :
    rolloutLoop false fetchConv "backend" 0 180 =
      ⟨.done, 1, 0, [mkObservation dConv 3]⟩ ∧
    rolloutLoop false fetchStuck "backend" 0 180 =
      ⟨.done, 1, 1, [mkObservation dStuck 3]⟩ := by
  constructor
  · have h := c3_status_single_fetch fetchConv "backend" 179 dConv 3 rfl rfl
    rw [show rolloutComplete dConv 3 = true by decide] at h
    simpa using h
  · have h := c3_status_single_fetch fetchStuck "backend" 179 dStuck 3 rfl rfl
    rw [show rolloutComplete dStuck 3 = false by decide] at h
    simpa using h

/-- C7: with a blank image string, `runDeploy` fails with the
`--image is required` error before any cluster interaction: zero
fetches of the deployment, zero updates, zero rollout-wait fetches. -/
theorem c7_empty_image_fails_before_any_access
    (image : String) (getDep : Except String Deployment)
    (updateRes : Deployment → Except String Unit)
    (waitFetch : Nat → Except String Deployment) (ns name : String)
    (h : goTrimSpace image = "") :
    runDeploy image getDep updateRes waitFetch ns name =
      ⟨.failure "--image is required when specifying a deployment", 0, [], 0⟩ := by
  simp [runDeploy, h]

/-- Witness for C7 at the empty image string. -/
theorem c7_empty_image_fails_before_any_access_witness :
    runDeploy "" (.ok dStuck) (fun _ => .ok ()) fetchConv "ns" "backend" =
      ⟨.failure "--image is required when specifying a deployment", 0, [], 0⟩ :=
  c7_empty_image_fails_before_any_access "" (.ok dStuck) (fun _ => .ok ())
    fetchConv "ns" "backend" (by decide)

/-- C8: on a successful update, `runDeploy` writes back exactly one
object: the fetched deployment with the given image assigned to every
container of its pod template (container count preserved). -/
theorem c8_sets_image_on_every_container
    (image : String) (getDep : Except String Deployment)
    (updateRes : Deployment → Except String Unit)
    (waitFetch : Nat → Except String Deployment) (ns name : String)
    (dep : Deployment)
    (hi : ¬goTrimSpace image = "") (hg : getDep = .ok dep)
    (hu : updateRes (updateAllImages image dep) = .ok ()) :
    (runDeploy image getDep updateRes waitFetch ns name).writes =
      [updateAllImages image dep] ∧
    (runDeploy image getDep updateRes waitFetch ns name).writes.length = 1 ∧
    (updateAllImages image dep).spec.containers.map Container.image =
      dep.spec.containers.map (fun _ => image) := by
  have hw : (runDeploy image getDep updateRes waitFetch ns name).writes =
      [updateAllImages image dep] := by
    simp only [runDeploy, if_neg hi, hg, hu]
    cases hout : (waitForDeploymentRollout waitFetch ns name).outcome <;> simp [hout]
  refine ⟨hw, by rw [hw]; rfl, ?_⟩
  simp [updateAllImages, Function.comp_def]

/-- Witness for C8 at a concrete deployment and image. -/
theorem c8_sets_image_on_every_container_witness :
    (runDeploy "img:2" (.ok dStuck) (fun _ => .ok ()) fetchConv "ns" "backend").writes =
      [updateAllImages "img:2" dStuck] ∧
    (updateAllImages "img:2" dStuck).spec.containers.map Container.image =
      dStuck.spec.containers.map (fun _ => "img:2") := by
  have h := c8_sets_image_on_every_container "img:2" (.ok dStuck) (fun _ => .ok ())
    fetchConv "ns" "backend" dStuck (by decide) rfl rfl
  exact ⟨h.1, h.2.2⟩

/-- C10: the wait loop's convergence check dereferences
`dep.Spec.Replicas` with no nil guard — a poll that fetches a
deployment with a nil desired count hits the nil dereference, and the
check evaluates to a value exactly when the count is non-nil — while
`listDeployments` defaults a nil count to 1 and is total. -/
theorem c10_nil_replicas_deref
    (fetch : Nat → Except String Deployment) (ns name : String) (i r : Nat)
    (d : Deployment) :
    (fetch i = .ok d → d.spec.replicas = none →
      waitFrom fetch ns name i (r + 1) = ⟨.nilDeref, 1, 0⟩) ∧
    ((convergedCheck d).isSome ↔ d.spec.replicas.isSome) ∧
    (d.spec.replicas = none → listDesiredReplicas d = 1) ∧
    (∀ m : Int, d.spec.replicas = some m → listDesiredReplicas d = m) := by
  refine ⟨fun hf hrep => ?_, ?_, fun h => ?_, fun m h => ?_⟩
  · simp [waitFrom, hf, convergedCheck, hrep]
  · cases h : d.spec.replicas <;> simp [convergedCheck, h]
  · simp [listDesiredReplicas, h]
  · simp [listDesiredReplicas, h]

/-- Witness for C10: the nil-replicas deployment panics the wait on its
first poll and is listed as desiring 1 replica; a non-nil count is
listed verbatim. -/
theorem c10_nil_replicas_deref_witness :
    waitFrom fetchNil "ns" "backend" 0 180 = ⟨.nilDeref, 1, 0⟩ ∧
    listDesiredReplicas dNil = 1 ∧
    listDesiredReplicas dConv = 3 := by
  refine ⟨(c10_nil_replicas_deref fetchNil "ns" "backend" 0 179 dNil).1 rfl rfl,
    (c10_nil_replicas_deref fetchNil "ns" "backend" 0 0 dNil).2.2.1 rfl,
    (c10_nil_replicas_deref fetchNil "ns" "backend" 0 0 dConv).2.2.2 3 rfl⟩

/-- The nested subsets/addresses loops of `resolveTargetPod` find
exactly the first element of the flattened, in-order address list
satisfying the source's filter, and return its target-reference name. -/
theorem firstPodInSubsets_eq_find (ss : List EndpointSubset) :
    firstPodInSubsets ss =
      ((allAddresses ss).find? isPodBacked).bind
        (fun a => a.targetRef.map TargetRef.name) := by
  induction ss with
  | nil => rfl
  | cons s rest ih =>
    have key : ∀ l : List EndpointAddress,
        (match firstPodInAddresses l with
         | some n => some n
         | none => firstPodInSubsets rest) =
        ((l ++ allAddresses rest).find? isPodBacked).bind
          (fun a => a.targetRef.map TargetRef.name) := by
      intro l
      induction l with
      | nil => simpa using ih
      | cons a l ihl =>
        cases hr : a.targetRef with
        | none =>
          simpa [firstPodInAddresses, List.find?, isPodBacked, hr] using ihl
        | some tr =>
          cases hc : (tr.kind == "Pod" && tr.name != "") with
          | true =>
            simp [firstPodInAddresses, List.find?, isPodBacked, hr, hc]
          | false =>
            simpa [firstPodInAddresses, List.find?, isPodBacked, hr, hc] using ihl
    simpa [firstPodInSubsets, allAddresses] using key s.addresses

/-- For a well-formed service target, `resolveTargetPod` reduces to the
endpoints lookup followed by the in-order scan. -/
theorem resolveTargetPod_service_branch
    (getEndpoints : String → String → Except String Endpoints)
    (getPod : String → String → Except String Unit)
    (ns target p rest : String)
    (hpfx : strStarts (goToLower target) "svc/" = true ∨
      strStarts (goToLower target) "service/" = true)
    (hsplit : goSplitN2 target '/' = [p, rest]) (hrest : rest ≠ "") :
    resolveTargetPod getEndpoints getPod ns target =
      match getEndpoints ns rest with
      | .error e =>
        (.error ("failed to get endpoints for service " ++ rest ++ ": " ++ e),
         [.endpoints ns rest])
      | .ok eps =>
        match firstPodInSubsets eps.subsets with
        | some podName => (.ok podName, [.endpoints ns rest])
        | none =>
          (.error ("no backing pod found for service " ++ rest),
           [.endpoints ns rest]) := by
  have hcond : (strStarts (goToLower target) "svc/" ||
      strStarts (goToLower target) "service/") = true := by
    rcases hpfx with h | h <;> simp [h]
  have hne : (rest == "") = false := by
    simpa using hrest
  simp [resolveTargetPod, hcond, hsplit, hne]

/-- Counterexample to C5 as stated: endpoints whose first address
carries a target reference of kind `Pod` with an empty name.  The claim
as worded returns the name of that first pod-referencing address (the
empty string); the code skips it — its filter also requires a non-empty
name — and returns the second address's pod `foo-def`. -/
theorem c5_resolve_counterexample :
    (resolveTargetPod geX gpX "ns" "svc/foo").1 = .ok "foo-def" ∧
    claimFirstPodName epsX = some "" ∧
    ("foo-def" : String) ≠ "" := by
  refine ⟨rfl, rfl, by decide⟩

/-- C5 (amended): for a service target with non-empty remainder,
`resolveTargetPod` returns the name of the first address — subsets and
addresses scanned in their given order — whose backing target reference
is a pod with a non-empty name; if no such address exists it fails with
the no-backing-pod error, and if the endpoints object cannot be fetched
it fails with the lookup error; in each case exactly one endpoints
lookup is performed. -/
theorem c5_resolve_first_backing_pod
    (getEndpoints : String → String → Except String Endpoints)
    (getPod : String → String → Except String Unit)
    (ns target p rest : String)
    (hpfx : strStarts (goToLower target) "svc/" = true ∨
      strStarts (goToLower target) "service/" = true)
    (hsplit : goSplitN2 target '/' = [p, rest]) (hrest : rest ≠ "") :
    (∀ eps a tr, getEndpoints ns rest = .ok eps →
      (allAddresses eps.subsets).find? isPodBacked = some a →
      a.targetRef = some tr →
      resolveTargetPod getEndpoints getPod ns target =
        (.ok tr.name, [.endpoints ns rest])) ∧
    (∀ eps, getEndpoints ns rest = .ok eps →
      (allAddresses eps.subsets).find? isPodBacked = none →
      resolveTargetPod getEndpoints getPod ns target =
        (.error ("no backing pod found for service " ++ rest),
         [.endpoints ns rest])) ∧
    (∀ e, getEndpoints ns rest = .error e →
      resolveTargetPod getEndpoints getPod ns target =
        (.error ("failed to get endpoints for service " ++ rest ++ ": " ++ e),
         [.endpoints ns rest])) := by
  have hred := resolveTargetPod_service_branch getEndpoints getPod ns target p rest
    hpfx hsplit hrest
  refine ⟨fun eps a tr hge hfind htr => ?_, fun eps hge hfind => ?_,
    fun e hge => ?_⟩
  · have hscan : firstPodInSubsets eps.subsets = some tr.name := by
      rw [firstPodInSubsets_eq_find, hfind]
      simp [htr]
    rw [hred, hge]
    simp [hscan]
  · have hscan : firstPodInSubsets eps.subsets = none := by
      rw [firstPodInSubsets_eq_find, hfind]
      rfl
    rw [hred, hge]
    simp [hscan]
  · rw [hred, hge]

/-- Witness for C5 (amended): resolving `svc/foo` against endpoints
listing pods `foo-abc` then `foo-def` returns `foo-abc`; against a
failing endpoints lookup it returns the lookup error. -/
theorem c5_resolve_first_backing_pod_witness :
    resolveTargetPod geW gpX "ns" "svc/foo" =
      (.ok "foo-abc", [.endpoints "ns" "foo"]) ∧
    resolveTargetPod geErr gpX "ns" "svc/foo" =
      (.error "failed to get endpoints for service foo: nope",
       [.endpoints "ns" "foo"]) := by
  constructor
  · exact (c5_resolve_first_backing_pod geW gpX "ns" "svc/foo" "svc" "foo"
      (Or.inl (by decide)) (by decide) (by decide)).1 epsW
      ⟨some ⟨"Pod", "foo-abc"⟩⟩ ⟨"Pod", "foo-abc"⟩ rfl (by decide) rfl
  · exact (c5_resolve_first_backing_pod geErr gpX "ns" "svc/foo" "svc" "foo"
      (Or.inl (by decide)) (by decide) (by decide)).2.2 "nope" rfl

/-- C6: a target matching the `svc/` or `service/` prefix whose
remainder after the first slash is empty fails with the invalid-target
error, and the trace of cluster reads is empty: no endpoints or pod
lookup is performed, whatever the oracles would answer. -/
theorem c6_empty_service_name_no_lookup
    (getEndpoints : String → String → Except String Endpoints)
    (getPod : String → String → Except String Unit) (ns target p : String)
    (hpfx : strStarts (goToLower target) "svc/" = true ∨
      strStarts (goToLower target) "service/" = true)
    (hsplit : goSplitN2 target '/' = [p, ""]) :
    resolveTargetPod getEndpoints getPod ns target =
      (.error "invalid service target, expected svc/<name>", []) := by
  have hcond : (strStarts (goToLower target) "svc/" ||
      strStarts (goToLower target) "service/") = true := by
    rcases hpfx with h | h <;> simp [h]
  simp [resolveTargetPod, hcond, hsplit]

/-- Witness for C6 at the targets `svc/` and `service/`. -/
theorem c6_empty_service_name_no_lookup_witness :
    resolveTargetPod geX gpX "ns" "svc/" =
      (.error "invalid service target, expected svc/<name>", []) ∧
    resolveTargetPod geX gpX "ns" "service/" =
      (.error "invalid service target, expected svc/<name>", []) := by
  constructor
  · exact c6_empty_service_name_no_lookup geX gpX "ns" "svc/" "svc"
      (Or.inl (by decide)) (by decide)
  · exact c6_empty_service_name_no_lookup geX gpX "ns" "service/" "service"
      (Or.inr (by decide)) (by decide)

/-- C9: `parsePortSpec` maps `"8080:80"` to local 8080 and remote 80,
`"3000"` to local and remote 3000, rejects `"abc:80"` with the
number-parse error, and rejects `"1:2:3"` with the format error. -/
theorem c9_parse_port_spec :
    parsePortSpec "8080:80" = .ok (8080, 80) ∧
    parsePortSpec "3000" = .ok (3000, 3000) ∧
    parsePortSpec "abc:80" = .error "invalid local port number: abc" ∧
    parsePortSpec "1:2:3" = .error "invalid port specification format" :=
  ⟨rfl, rfl, rfl, rfl⟩

end KubeCmd
